import Mathlib

/-!
Verification of the chip-to-chip connection resolver
(`xt_find_c2c_connection.py`) against its specification.

The Python script is embedded shallowly:

* Python `int` is `Int` (arbitrary precision; `//` and `%` with a positive
  divisor are Euclidean division, which is what Lean's `Int` `/` and `%` are).
* The two static wiring tables are transcribed verbatim, in order.  The
  source stores each side of an external connection as a string such as
  `"N8/C7/P15"` or `"Next N3/C1/P4"` and re-parses it at query time with
  `parse_side`; here every side is stored already parsed as an `ExtSide`
  (the `"Next "` marker becomes `Rack.rxNext`, otherwise `Rack.rx`).
  The `connection_number` and `length` fields of the table are never read
  by any of the resolver functions and are omitted.
* Result tuples `(port, rack, "N<n>", "C<c>", chip, rack, "N<n>", "C<c>",
  port, chip)` become the structure `Conn`; the `f"N{n}"` / `f"C{c}"` /
  `"RX"` / `"RX+1"` string formatting is injective, so the node/card fields
  are kept numeric and the rack labels become the two-value type `Rack`.
* `list.sort(key=lambda x: x[0])` is a stable sort by the first component;
  it is modelled by `List.insertionSort` on the `portA` key, which places
  an element after all earlier elements with a key `≤` its own and is
  therefore stable, hence produces the same list as Python's stable sort.
* Exceptions become `Except String` (with the original messages, quotes
  dropped) where the source catches them, and `Option.none` where the
  source lets them escape (the uncaught `ValueError` of
  `int(port_str[1:])` in `find_connections_from_port`).
* Python string scanning (`int(...)`, `split`, `startswith`) is modelled
  by structural functions on `String.data`; `str_to_int?` models `int()`
  on strings made of an optional sign followed by digits (the inputs the
  CLI grammar is concerned with).
-/

namespace XT

/-- Rack label of one side of an external connection: `"RX"` for the local
rack, `"RX+1"` for a side whose table string carries the `"Next "` marker. -/
inductive Rack where
  | rx
  | rxNext
deriving DecidableEq, Repr

/-- One side of an external connection, the parsed form of a table string
such as `"N8/C7/P15"` (see `parse_side` in the source). -/
structure ExtSide where
  rack : Rack
  node : Int
  card : Int
  port : Int
deriving DecidableEq, Repr

/-- One row of `external_connections` (side strings stored parsed;
`connection_number` and `length` are display-only and unused). -/
structure ExtConn where
  side1 : ExtSide
  side2 : ExtSide
deriving DecidableEq, Repr

/-- One row of `internal_connections`. -/
structure InternalConn where
  card1 : Int
  connector1 : Int
  card2 : Int
  connector2 : Int
deriving DecidableEq, Repr

/-- A resolved connection: the tuple
`(portA, rackA, nodeA, cardA, devA, rackB, nodeB, cardB, portB, devB)`
appended by the resolver loops.  Side A is the queried side; `portA` is the
tuple's first component, the sort key. -/
structure Conn where
  portA : Int
  rackA : Rack
  nodeA : Int
  cardA : Int
  devA : Int
  rackB : Rack
  nodeB : Int
  cardB : Int
  portB : Int
  devB : Int
deriving DecidableEq, Repr

/-- Rows 1-36 of `external_connections` (the single Python
list is split into four chunks only to keep elaboration cheap). -/
def external_connections_part1 : List ExtConn := [
  ⟨⟨.rx, 8, 7, 15⟩, ⟨.rx, 9, 7, 4⟩⟩,
  ⟨⟨.rx, 7, 7, 15⟩, ⟨.rx, 8, 7, 4⟩⟩,
  ⟨⟨.rx, 6, 7, 15⟩, ⟨.rx, 7, 7, 4⟩⟩,
  ⟨⟨.rx, 5, 7, 15⟩, ⟨.rx, 6, 7, 4⟩⟩,
  ⟨⟨.rx, 4, 7, 15⟩, ⟨.rx, 5, 7, 4⟩⟩,
  ⟨⟨.rx, 3, 7, 15⟩, ⟨.rx, 4, 7, 4⟩⟩,
  ⟨⟨.rx, 2, 7, 15⟩, ⟨.rx, 3, 7, 4⟩⟩,
  ⟨⟨.rx, 1, 7, 15⟩, ⟨.rx, 2, 7, 4⟩⟩,
  ⟨⟨.rx, 5, 7, 5⟩, ⟨.rx, 9, 7, 0⟩⟩,
  ⟨⟨.rx, 4, 7, 5⟩, ⟨.rx, 8, 7, 0⟩⟩,
  ⟨⟨.rx, 3, 7, 5⟩, ⟨.rx, 7, 7, 0⟩⟩,
  ⟨⟨.rx, 2, 7, 5⟩, ⟨.rx, 6, 7, 0⟩⟩,
  ⟨⟨.rx, 1, 7, 5⟩, ⟨.rx, 5, 7, 0⟩⟩,
  ⟨⟨.rx, 6, 6, 15⟩, ⟨.rx, 9, 6, 4⟩⟩,
  ⟨⟨.rx, 5, 6, 15⟩, ⟨.rx, 8, 6, 4⟩⟩,
  ⟨⟨.rx, 4, 6, 15⟩, ⟨.rx, 7, 6, 4⟩⟩,
  ⟨⟨.rx, 3, 6, 15⟩, ⟨.rx, 6, 6, 4⟩⟩,
  ⟨⟨.rx, 2, 6, 15⟩, ⟨.rx, 5, 6, 4⟩⟩,
  ⟨⟨.rx, 1, 6, 15⟩, ⟨.rx, 4, 6, 4⟩⟩,
  ⟨⟨.rx, 7, 6, 5⟩, ⟨.rx, 9, 6, 0⟩⟩,
  ⟨⟨.rx, 6, 6, 5⟩, ⟨.rx, 8, 6, 0⟩⟩,
  ⟨⟨.rx, 5, 6, 5⟩, ⟨.rx, 7, 6, 0⟩⟩,
  ⟨⟨.rx, 4, 6, 5⟩, ⟨.rx, 6, 6, 0⟩⟩,
  ⟨⟨.rx, 3, 6, 5⟩, ⟨.rx, 5, 6, 0⟩⟩,
  ⟨⟨.rx, 2, 6, 5⟩, ⟨.rx, 4, 6, 0⟩⟩,
  ⟨⟨.rx, 1, 6, 5⟩, ⟨.rx, 3, 6, 0⟩⟩,
  ⟨⟨.rx, 7, 5, 15⟩, ⟨.rx, 9, 5, 4⟩⟩,
  ⟨⟨.rx, 6, 5, 15⟩, ⟨.rx, 8, 5, 4⟩⟩,
  ⟨⟨.rx, 5, 5, 15⟩, ⟨.rx, 7, 5, 4⟩⟩,
  ⟨⟨.rx, 4, 5, 15⟩, ⟨.rx, 6, 5, 4⟩⟩,
  ⟨⟨.rx, 3, 5, 15⟩, ⟨.rx, 5, 5, 4⟩⟩,
  ⟨⟨.rx, 2, 5, 15⟩, ⟨.rx, 4, 5, 4⟩⟩,
  ⟨⟨.rx, 1, 5, 15⟩, ⟨.rx, 3, 5, 4⟩⟩,
  ⟨⟨.rx, 5, 5, 5⟩, ⟨.rx, 9, 5, 0⟩⟩,
  ⟨⟨.rx, 4, 5, 5⟩, ⟨.rx, 8, 5, 0⟩⟩,
  ⟨⟨.rx, 3, 5, 5⟩, ⟨.rx, 7, 5, 0⟩⟩
]

/-- Rows 37-72 of `external_connections` (the single Python
list is split into four chunks only to keep elaboration cheap). -/
def external_connections_part2 : List ExtConn := [
  ⟨⟨.rx, 2, 5, 5⟩, ⟨.rx, 6, 5, 0⟩⟩,
  ⟨⟨.rx, 1, 5, 5⟩, ⟨.rx, 5, 5, 0⟩⟩,
  ⟨⟨.rx, 8, 4, 15⟩, ⟨.rx, 9, 4, 4⟩⟩,
  ⟨⟨.rx, 7, 4, 15⟩, ⟨.rx, 8, 4, 4⟩⟩,
  ⟨⟨.rx, 6, 4, 15⟩, ⟨.rx, 7, 4, 4⟩⟩,
  ⟨⟨.rx, 5, 4, 15⟩, ⟨.rx, 6, 4, 4⟩⟩,
  ⟨⟨.rx, 4, 4, 15⟩, ⟨.rx, 5, 4, 4⟩⟩,
  ⟨⟨.rx, 3, 4, 15⟩, ⟨.rx, 4, 4, 4⟩⟩,
  ⟨⟨.rx, 2, 4, 15⟩, ⟨.rx, 3, 4, 4⟩⟩,
  ⟨⟨.rx, 1, 4, 15⟩, ⟨.rx, 2, 4, 4⟩⟩,
  ⟨⟨.rx, 6, 4, 5⟩, ⟨.rx, 9, 4, 0⟩⟩,
  ⟨⟨.rx, 5, 4, 5⟩, ⟨.rx, 8, 4, 0⟩⟩,
  ⟨⟨.rx, 4, 4, 5⟩, ⟨.rx, 7, 4, 0⟩⟩,
  ⟨⟨.rx, 3, 4, 5⟩, ⟨.rx, 6, 4, 0⟩⟩,
  ⟨⟨.rx, 2, 4, 5⟩, ⟨.rx, 5, 4, 0⟩⟩,
  ⟨⟨.rx, 1, 4, 5⟩, ⟨.rx, 4, 4, 0⟩⟩,
  ⟨⟨.rx, 6, 3, 15⟩, ⟨.rx, 9, 3, 4⟩⟩,
  ⟨⟨.rx, 5, 3, 15⟩, ⟨.rx, 8, 3, 4⟩⟩,
  ⟨⟨.rx, 4, 3, 15⟩, ⟨.rx, 7, 3, 4⟩⟩,
  ⟨⟨.rx, 3, 3, 15⟩, ⟨.rx, 6, 3, 4⟩⟩,
  ⟨⟨.rx, 2, 3, 15⟩, ⟨.rx, 5, 3, 4⟩⟩,
  ⟨⟨.rx, 1, 3, 15⟩, ⟨.rx, 4, 3, 4⟩⟩,
  ⟨⟨.rx, 5, 3, 5⟩, ⟨.rx, 9, 3, 0⟩⟩,
  ⟨⟨.rx, 4, 3, 5⟩, ⟨.rx, 8, 3, 0⟩⟩,
  ⟨⟨.rx, 3, 3, 5⟩, ⟨.rx, 7, 3, 0⟩⟩,
  ⟨⟨.rx, 2, 3, 5⟩, ⟨.rx, 6, 3, 0⟩⟩,
  ⟨⟨.rx, 1, 3, 5⟩, ⟨.rx, 5, 3, 0⟩⟩,
  ⟨⟨.rx, 8, 2, 15⟩, ⟨.rx, 9, 2, 4⟩⟩,
  ⟨⟨.rx, 7, 2, 15⟩, ⟨.rx, 8, 2, 4⟩⟩,
  ⟨⟨.rx, 6, 2, 15⟩, ⟨.rx, 7, 2, 4⟩⟩,
  ⟨⟨.rx, 5, 2, 15⟩, ⟨.rx, 6, 2, 4⟩⟩,
  ⟨⟨.rx, 4, 2, 15⟩, ⟨.rx, 5, 2, 4⟩⟩,
  ⟨⟨.rx, 3, 2, 15⟩, ⟨.rx, 4, 2, 4⟩⟩,
  ⟨⟨.rx, 2, 2, 15⟩, ⟨.rx, 3, 2, 4⟩⟩,
  ⟨⟨.rx, 1, 2, 15⟩, ⟨.rx, 2, 2, 4⟩⟩,
  ⟨⟨.rx, 7, 2, 5⟩, ⟨.rx, 9, 2, 0⟩⟩
]

/-- Rows 73-108 of `external_connections` (the single Python
list is split into four chunks only to keep elaboration cheap). -/
def external_connections_part3 : List ExtConn := [
  ⟨⟨.rx, 6, 2, 5⟩, ⟨.rx, 8, 2, 0⟩⟩,
  ⟨⟨.rx, 5, 2, 5⟩, ⟨.rx, 7, 2, 0⟩⟩,
  ⟨⟨.rx, 4, 2, 5⟩, ⟨.rx, 6, 2, 0⟩⟩,
  ⟨⟨.rx, 3, 2, 5⟩, ⟨.rx, 5, 2, 0⟩⟩,
  ⟨⟨.rx, 2, 2, 5⟩, ⟨.rx, 4, 2, 0⟩⟩,
  ⟨⟨.rx, 1, 2, 5⟩, ⟨.rx, 3, 2, 0⟩⟩,
  ⟨⟨.rx, 6, 1, 15⟩, ⟨.rx, 9, 1, 4⟩⟩,
  ⟨⟨.rx, 5, 1, 15⟩, ⟨.rx, 8, 1, 4⟩⟩,
  ⟨⟨.rx, 4, 1, 15⟩, ⟨.rx, 7, 1, 4⟩⟩,
  ⟨⟨.rx, 3, 1, 15⟩, ⟨.rx, 6, 1, 4⟩⟩,
  ⟨⟨.rx, 2, 1, 15⟩, ⟨.rx, 5, 1, 4⟩⟩,
  ⟨⟨.rx, 1, 1, 15⟩, ⟨.rx, 4, 1, 4⟩⟩,
  ⟨⟨.rx, 5, 1, 5⟩, ⟨.rx, 9, 1, 0⟩⟩,
  ⟨⟨.rx, 4, 1, 5⟩, ⟨.rx, 8, 1, 0⟩⟩,
  ⟨⟨.rx, 3, 1, 5⟩, ⟨.rx, 7, 1, 0⟩⟩,
  ⟨⟨.rx, 2, 1, 5⟩, ⟨.rx, 6, 1, 0⟩⟩,
  ⟨⟨.rx, 1, 1, 5⟩, ⟨.rx, 5, 1, 0⟩⟩,
  ⟨⟨.rx, 7, 0, 15⟩, ⟨.rx, 9, 0, 4⟩⟩,
  ⟨⟨.rx, 6, 0, 15⟩, ⟨.rx, 8, 0, 4⟩⟩,
  ⟨⟨.rx, 5, 0, 15⟩, ⟨.rx, 7, 0, 4⟩⟩,
  ⟨⟨.rx, 4, 0, 15⟩, ⟨.rx, 6, 0, 4⟩⟩,
  ⟨⟨.rx, 3, 0, 15⟩, ⟨.rx, 5, 0, 4⟩⟩,
  ⟨⟨.rx, 2, 0, 15⟩, ⟨.rx, 4, 0, 4⟩⟩,
  ⟨⟨.rx, 1, 0, 15⟩, ⟨.rx, 3, 0, 4⟩⟩,
  ⟨⟨.rx, 8, 0, 5⟩, ⟨.rx, 9, 0, 0⟩⟩,
  ⟨⟨.rx, 7, 0, 5⟩, ⟨.rx, 8, 0, 0⟩⟩,
  ⟨⟨.rx, 6, 0, 5⟩, ⟨.rx, 7, 0, 0⟩⟩,
  ⟨⟨.rx, 5, 0, 5⟩, ⟨.rx, 6, 0, 0⟩⟩,
  ⟨⟨.rx, 4, 0, 5⟩, ⟨.rx, 5, 0, 0⟩⟩,
  ⟨⟨.rx, 3, 0, 5⟩, ⟨.rx, 4, 0, 0⟩⟩,
  ⟨⟨.rx, 2, 0, 5⟩, ⟨.rx, 3, 0, 0⟩⟩,
  ⟨⟨.rx, 1, 0, 5⟩, ⟨.rx, 2, 0, 0⟩⟩,
  ⟨⟨.rx, 9, 1, 5⟩, ⟨.rxNext, 4, 1, 0⟩⟩,
  ⟨⟨.rx, 9, 1, 15⟩, ⟨.rxNext, 3, 1, 4⟩⟩,
  ⟨⟨.rx, 9, 3, 5⟩, ⟨.rxNext, 4, 3, 0⟩⟩,
  ⟨⟨.rx, 9, 3, 15⟩, ⟨.rxNext, 3, 3, 4⟩⟩
]

/-- Rows 109-144 of `external_connections` (the single Python
list is split into four chunks only to keep elaboration cheap). -/
def external_connections_part4 : List ExtConn := [
  ⟨⟨.rx, 9, 4, 5⟩, ⟨.rxNext, 3, 4, 0⟩⟩,
  ⟨⟨.rx, 9, 5, 5⟩, ⟨.rxNext, 4, 5, 0⟩⟩,
  ⟨⟨.rx, 9, 7, 5⟩, ⟨.rxNext, 4, 7, 0⟩⟩,
  ⟨⟨.rx, 8, 1, 5⟩, ⟨.rxNext, 3, 1, 0⟩⟩,
  ⟨⟨.rx, 8, 3, 5⟩, ⟨.rxNext, 3, 3, 0⟩⟩,
  ⟨⟨.rx, 8, 3, 15⟩, ⟨.rxNext, 2, 3, 4⟩⟩,
  ⟨⟨.rx, 8, 4, 5⟩, ⟨.rxNext, 2, 4, 0⟩⟩,
  ⟨⟨.rx, 8, 5, 5⟩, ⟨.rxNext, 3, 5, 0⟩⟩,
  ⟨⟨.rx, 8, 7, 5⟩, ⟨.rxNext, 3, 7, 0⟩⟩,
  ⟨⟨.rx, 9, 0, 15⟩, ⟨.rxNext, 2, 0, 4⟩⟩,
  ⟨⟨.rx, 9, 2, 5⟩, ⟨.rxNext, 2, 2, 0⟩⟩,
  ⟨⟨.rx, 9, 5, 15⟩, ⟨.rxNext, 2, 5, 4⟩⟩,
  ⟨⟨.rx, 9, 6, 5⟩, ⟨.rxNext, 2, 6, 0⟩⟩,
  ⟨⟨.rx, 9, 6, 15⟩, ⟨.rxNext, 3, 6, 4⟩⟩,
  ⟨⟨.rx, 8, 0, 15⟩, ⟨.rxNext, 1, 0, 4⟩⟩,
  ⟨⟨.rx, 8, 1, 15⟩, ⟨.rxNext, 2, 1, 4⟩⟩,
  ⟨⟨.rx, 8, 2, 5⟩, ⟨.rxNext, 1, 2, 0⟩⟩,
  ⟨⟨.rx, 8, 5, 15⟩, ⟨.rxNext, 1, 5, 4⟩⟩,
  ⟨⟨.rx, 8, 6, 5⟩, ⟨.rxNext, 1, 6, 0⟩⟩,
  ⟨⟨.rx, 8, 6, 15⟩, ⟨.rxNext, 2, 6, 4⟩⟩,
  ⟨⟨.rx, 9, 0, 5⟩, ⟨.rxNext, 1, 0, 0⟩⟩,
  ⟨⟨.rx, 9, 2, 15⟩, ⟨.rxNext, 1, 2, 4⟩⟩,
  ⟨⟨.rx, 9, 4, 15⟩, ⟨.rxNext, 1, 4, 4⟩⟩,
  ⟨⟨.rx, 9, 7, 15⟩, ⟨.rxNext, 1, 7, 4⟩⟩,
  ⟨⟨.rx, 7, 1, 5⟩, ⟨.rxNext, 2, 1, 0⟩⟩,
  ⟨⟨.rx, 7, 1, 15⟩, ⟨.rxNext, 1, 1, 4⟩⟩,
  ⟨⟨.rx, 7, 3, 5⟩, ⟨.rxNext, 2, 3, 0⟩⟩,
  ⟨⟨.rx, 7, 3, 15⟩, ⟨.rxNext, 1, 3, 4⟩⟩,
  ⟨⟨.rx, 7, 4, 5⟩, ⟨.rxNext, 1, 4, 0⟩⟩,
  ⟨⟨.rx, 7, 5, 5⟩, ⟨.rxNext, 2, 5, 0⟩⟩,
  ⟨⟨.rx, 7, 6, 15⟩, ⟨.rxNext, 1, 6, 4⟩⟩,
  ⟨⟨.rx, 7, 7, 5⟩, ⟨.rxNext, 2, 7, 0⟩⟩,
  ⟨⟨.rx, 6, 1, 5⟩, ⟨.rxNext, 1, 1, 0⟩⟩,
  ⟨⟨.rx, 6, 3, 5⟩, ⟨.rxNext, 1, 3, 0⟩⟩,
  ⟨⟨.rx, 6, 5, 5⟩, ⟨.rxNext, 1, 5, 0⟩⟩,
  ⟨⟨.rx, 6, 7, 5⟩, ⟨.rxNext, 1, 7, 0⟩⟩
]

/-- The 144-row external (inter-chassis / inter-rack cable) table,
transcribed in order from the source. -/
def external_connections : List ExtConn :=
  external_connections_part1 ++ external_connections_part2
    ++ external_connections_part3 ++ external_connections_part4

/-- The 28-row internal (intra-chassis) table, transcribed in order. -/
def internal_connections : List InternalConn := [
  ⟨3, 11, 1, 11⟩,
  ⟨3, 6, 2, 12⟩,
  ⟨3, 7, 0, 14⟩,
  ⟨2, 14, 1, 12⟩,
  ⟨2, 7, 0, 13⟩,
  ⟨1, 6, 0, 12⟩,
  ⟨7, 11, 5, 11⟩,
  ⟨7, 6, 6, 12⟩,
  ⟨7, 7, 4, 14⟩,
  ⟨6, 14, 5, 12⟩,
  ⟨6, 7, 4, 13⟩,
  ⟨5, 6, 4, 12⟩,
  ⟨7, 14, 2, 13⟩,
  ⟨7, 13, 3, 13⟩,
  ⟨7, 12, 1, 13⟩,
  ⟨7, 8, 0, 11⟩,
  ⟨6, 13, 3, 14⟩,
  ⟨6, 11, 1, 14⟩,
  ⟨6, 6, 2, 6⟩,
  ⟨6, 8, 0, 6⟩,
  ⟨5, 14, 2, 11⟩,
  ⟨5, 13, 3, 12⟩,
  ⟨5, 7, 1, 7⟩,
  ⟨5, 8, 0, 7⟩,
  ⟨4, 11, 3, 8⟩,
  ⟨4, 7, 1, 8⟩,
  ⟨4, 6, 2, 8⟩,
  ⟨4, 8, 0, 8⟩
]

/-- `map_chip_to_node_card`:
`node = ((chip // 8 + (start_node_num - 1)) % 9) + 1`, `card = chip % 8`.
Total on all of `Int`, like the Python function. -/
def map_chip_to_node_card (chip start_node_num : Int) : Int × Int :=
  ((((chip / 8) + (start_node_num - 1)) % 9) + 1, chip % 8)

/-- `node_card_to_chip`: first chip in `range(nchips)` whose coordinate is
`(node_num, card_num)`, else `none`. -/
def node_card_to_chip (node_num card_num start_node_num : Int) (nchips : Nat) :
    Option Int :=
  ((List.range nchips).map Int.ofNat).find? (fun candidate =>
    (map_chip_to_node_card candidate start_node_num).1 == node_num &&
    (map_chip_to_node_card candidate start_node_num).2 == card_num)

/-- Sort key order used by all three resolvers: ascending in the queried
side's port/connector number (the tuple's first component). -/
def connLE (x y : Conn) : Prop := x.portA ≤ y.portA

instance : DecidableRel connLE := fun x y => Int.decLe x.portA y.portA

instance : IsTotal Conn connLE := ⟨fun x y => Int.le_total x.portA y.portA⟩

instance : IsTrans Conn connLE := ⟨fun _ _ _ h1 h2 => Int.le_trans h1 h2⟩

/-- `connections.sort(key=lambda x: x[0])`: stable sort by `portA`. -/
def sortConns (l : List Conn) : List Conn := l.insertionSort connLE

/-- Loop body of the `internal_connections` scan of
`find_all_connections_for_chip`. -/
def allIntF (nchips : Nat) (s nA cA A : Int) (e : InternalConn) : Option Conn :=
  if e.card1 = cA then
    match node_card_to_chip nA e.card2 s nchips with
    | some o => some ⟨e.connector1, .rx, nA, cA, A, .rx, nA, e.card2, e.connector2, o⟩
    | none => none
  else if e.card2 = cA then
    match node_card_to_chip nA e.card1 s nchips with
    | some o => some ⟨e.connector2, .rx, nA, cA, A, .rx, nA, e.card1, e.connector1, o⟩
    | none => none
  else none

/-- Loop body of the `external_connections` scan of
`find_all_connections_for_chip`. -/
def allExtF (nchips : Nat) (s nA cA A : Int) (e : ExtConn) : Option Conn :=
  if e.side1.node = nA ∧ e.side1.card = cA then
    match node_card_to_chip e.side2.node e.side2.card s nchips with
    | some o => some ⟨e.side1.port, e.side1.rack, e.side1.node, e.side1.card, A,
        e.side2.rack, e.side2.node, e.side2.card, e.side2.port, o⟩
    | none => none
  else if e.side2.node = nA ∧ e.side2.card = cA then
    match node_card_to_chip e.side1.node e.side1.card s nchips with
    | some o => some ⟨e.side2.port, e.side2.rack, e.side2.node, e.side2.card, A,
        e.side1.rack, e.side1.node, e.side1.card, e.side1.port, o⟩
    | none => none
  else none

/-- The `connections` list of `find_all_connections_for_chip` just before
the final sort: internal-table matches then external-table matches, each in
table order. -/
def find_all_connections_raw (nchips : Nat) (s A : Int) : List Conn :=
  internal_connections.filterMap
      (allIntF nchips s (map_chip_to_node_card A s).1 (map_chip_to_node_card A s).2 A)
    ++ external_connections.filterMap
      (allExtF nchips s (map_chip_to_node_card A s).1 (map_chip_to_node_card A s).2 A)

/-- `find_all_connections_for_chip`. -/
def find_all_connections_for_chip (nchips : Nat) (s A : Int) : List Conn :=
  sortConns (find_all_connections_raw nchips s A)

/-- Loop body of the internal scan of `find_connections_between_chips`
(taken when the two chips are on the same node). -/
def betweenIntF (nA cA A nB cB B : Int) (e : InternalConn) : Option Conn :=
  if e.card1 = cA ∧ e.card2 = cB then
    some ⟨e.connector1, .rx, nA, cA, A, .rx, nB, cB, e.connector2, B⟩
  else if e.card2 = cA ∧ e.card1 = cB then
    some ⟨e.connector2, .rx, nA, cA, A, .rx, nB, cB, e.connector1, B⟩
  else none

/-- Loop body of the external scan of `find_connections_between_chips`
(taken when the two chips are on different nodes). -/
def betweenExtF (nA cA A nB cB B : Int) (e : ExtConn) : Option Conn :=
  if e.side1.node = nA ∧ e.side1.card = cA ∧ e.side2.node = nB ∧ e.side2.card = cB then
    some ⟨e.side1.port, e.side1.rack, e.side1.node, e.side1.card, A,
      e.side2.rack, e.side2.node, e.side2.card, e.side2.port, B⟩
  else if e.side2.node = nA ∧ e.side2.card = cA ∧ e.side1.node = nB ∧ e.side1.card = cB then
    some ⟨e.side2.port, e.side2.rack, e.side2.node, e.side2.card, A,
      e.side1.rack, e.side1.node, e.side1.card, e.side1.port, B⟩
  else none

/-- The `connections` list of `find_connections_between_chips` before the
final sort, parametrised by the two coordinates. -/
def find_connections_between_raw (nA cA A nB cB B : Int) : List Conn :=
  if nA = nB then internal_connections.filterMap (betweenIntF nA cA A nB cB B)
  else external_connections.filterMap (betweenExtF nA cA A nB cB B)

/-- `find_connections_between_chips` (its `nchips` parameter is never read,
exactly as in the source). -/
def find_connections_between_chips (nchips : Nat) (s A B : Int) : List Conn :=
  sortConns (find_connections_between_raw
    (map_chip_to_node_card A s).1 (map_chip_to_node_card A s).2 A
    (map_chip_to_node_card B s).1 (map_chip_to_node_card B s).2 B)

/-- Loop body of `c2c_internal_connections_by_port`. -/
def byPortF (card connector : Int) (e : InternalConn) :
    Option (Int × Int × Int × Int) :=
  if e.card1 = card ∧ e.connector1 = connector then
    some (card, connector, e.card2, e.connector2)
  else if e.card2 = card ∧ e.connector2 = connector then
    some (card, connector, e.card1, e.connector1)
  else none

/-- `c2c_internal_connections_by_port`. -/
def c2c_internal_connections_by_port (card connector : Int) :
    List (Int × Int × Int × Int) :=
  internal_connections.filterMap (byPortF card connector)

/-- Loop body applied to each `internal_matches` tuple in
`find_connections_from_port`. -/
def fpIntH (nchips : Nat) (s nA cA A : Int) (t : Int × Int × Int × Int) :
    Option Conn :=
  match node_card_to_chip nA t.2.2.1 s nchips with
  | some o => some ⟨t.2.1, .rx, nA, cA, A, .rx, nA, t.2.2.1, t.2.2.2, o⟩
  | none => none

/-- Loop body of the external scan of `find_connections_from_port`. -/
def fpExtF (nchips : Nat) (s nA cA A p : Int) (e : ExtConn) : Option Conn :=
  if e.side1.node = nA ∧ e.side1.card = cA ∧ e.side1.port = p then
    match node_card_to_chip e.side2.node e.side2.card s nchips with
    | some o => some ⟨e.side1.port, e.side1.rack, e.side1.node, e.side1.card, A,
        e.side2.rack, e.side2.node, e.side2.card, e.side2.port, o⟩
    | none => none
  else if e.side2.node = nA ∧ e.side2.card = cA ∧ e.side2.port = p then
    match node_card_to_chip e.side1.node e.side1.card s nchips with
    | some o => some ⟨e.side2.port, e.side2.rack, e.side2.node, e.side2.card, A,
        e.side1.rack, e.side1.node, e.side1.card, e.side1.port, o⟩
    | none => none
  else none

/-- The `connections` list of `find_connections_from_port` before the final
sort, parametrised by the already-parsed port number. -/
def find_connections_from_port_raw (nchips : Nat) (s A p : Int) : List Conn :=
  (c2c_internal_connections_by_port (map_chip_to_node_card A s).2 p).filterMap
      (fpIntH nchips s (map_chip_to_node_card A s).1 (map_chip_to_node_card A s).2 A)
    ++ external_connections.filterMap
      (fpExtF nchips s (map_chip_to_node_card A s).1 (map_chip_to_node_card A s).2 A p)

/-- Models `int()` on a digit list: all characters must be digits and the
list non-empty, as in Python (`int("")` raises). -/
def digitsToNat? (cs : List Char) : Option Nat :=
  if cs ≠ [] ∧ cs.all Char.isDigit then
    some (cs.foldl (fun n c => n * 10 + (c.toNat - '0'.toNat)) 0)
  else none

/-- Models Python `int(str)` on the token shapes the CLI deals with:
an optional sign followed by decimal digits. -/
def str_to_int? (cs : List Char) : Option Int :=
  if cs.head? == some '-' then (digitsToNat? cs.tail).map (fun n => -(n : Int))
  else if cs.head? == some '+' then (digitsToNat? cs.tail).map (fun n => (n : Int))
  else (digitsToNat? cs).map (fun n => (n : Int))

/-- `find_connections_from_port`.  The source computes
`port_num = int(port_str[1:])` with no surrounding `try`, so a port string
whose tail is not an integer raises an uncaught `ValueError`; that escape
is modelled as `none`. -/
def find_connections_from_port (nchips : Nat) (s A : Int) (port_str : String) :
    Option (List Conn) :=
  match str_to_int? (port_str.data.drop 1) with
  | none => none
  | some p => some (sortConns (find_connections_from_port_raw nchips s A p))

/-- Swap the two sides of a resolved connection tuple. -/
def swapConn (c : Conn) : Conn :=
  ⟨c.portB, c.rackB, c.nodeB, c.cardB, c.devB, c.rackA, c.nodeA, c.cardA, c.portA, c.devA⟩

/-- `startswith` check on character lists (used for the `"gn"`, `"N"`,
`"C"` and `"P"` markers of the CLI grammar). -/
def leadsWith : List Char → List Char → Bool
  | [], _ => true
  | _ :: _, [] => false
  | p :: ps, c :: cs => p == c && leadsWith ps cs

/-- Python `str.split(sep)` for a one-character separator. -/
def splitOnChar (sep : Char) : List Char → List (List Char)
  | [] => [[]]
  | c :: rest =>
    if c == sep then [] :: splitOnChar sep rest
    else
      match splitOnChar sep rest with
      | [] => [[ c]]
      | h :: t => (c :: h) :: t

/-- The alternation group of the fabric-size pattern
`^(8|16|24|32|40|64|72)c?$`. -/
def nchips_size_tokens : List String := ["8", "16", "24", "32", "40", "64", "72"]

/-- Python's `$` anchor: end of string, or just before a newline that ends
the string. -/
def regex_dollar (rest : List Char) : Bool :=
  rest == [] || rest == [ '\n']

/-- `validate_nchips`: models `re.match(r"^(8|16|24|32|40|64|72)c?$", s)`
converted to `bool`.  The whole string must match because of the anchors,
except that Python's `$` also accepts a single trailing newline. -/
def validate_nchips (s : String) : Bool :=
  nchips_size_tokens.any (fun p =>
    leadsWith p.data s.data &&
      (let rest := s.data.drop p.data.length
       regex_dollar rest || (rest.head? == some 'c' && regex_dollar rest.tail)))

/-- `get_nchips`: `int(re.match(r"(\d+)", s).group(1))`; `none` models the
`AttributeError` raised when the string has no leading digits. -/
def get_nchips (s : String) : Option Nat :=
  digitsToNat? (s.data.takeWhile Char.isDigit)

/-- `parse_node_arg`: strip a `"gn"` then an `"N"` marker, parse the rest
as an integer, require `[1, 9]`. -/
def parse_node_arg (node_arg : String) : Except String Int :=
  let raw0 := node_arg.data
  let raw1 := if leadsWith [ 'g', 'n'] raw0 then raw0.drop 2 else raw0
  let raw2 := if leadsWith [ 'N'] raw1 then raw1.drop 1 else raw1
  match str_to_int? raw2 with
  | none => .error "Node argument must be a number, or N<number>, or gn<number>."
  | some n =>
    if 1 ≤ n ∧ n ≤ 9 then .ok n
    else .error "Start node must be between 1 and 9."

/-- `parse_chip_arg`: an integer, or an `N<node>/C<card>` coordinate looked
up through `node_card_to_chip`; a coordinate with no chip under the active
mapping is an error distinct from every other failure (the original raises
`ValueError` with the distinct message kept here verbatim, minus quotes). -/
def parse_chip_arg (arg : String) (nchips : Nat) (start_node_num : Int) :
    Except String Int :=
  match str_to_int? arg.data with
  | some chip_int => .ok chip_int
  | none =>
    if ¬ arg.data.contains '/' then
      .error "Chip argument must be either int or N<number>/C<number>."
    else
      match splitOnChar '/' arg.data with
      | [node_str, card_str] =>
        if leadsWith [ 'N'] node_str && leadsWith [ 'C'] card_str then
          match str_to_int? (node_str.drop 1), str_to_int? (card_str.drop 1) with
          | some node_num, some card_num =>
            match node_card_to_chip node_num card_num start_node_num nchips with
            | some chip => .ok chip
            | none => .error "No chip matches the given node/card under current mapping."
          | _, _ => .error "Invalid node/card numbers in chip argument."
        else .error "Chip argument must be N<number>/C<number>."
      | _ => .error "too many values to unpack (expected 2)"

/-- What one invocation of `main` does, as observable output: a usage
message, a printed error message, an uncaught exception (traceback), or
the resolved connection lines. -/
inductive Outcome where
  | usage
  | errorMsg (msg : String)
  | crash
  | lines (conns : List Conn)
deriving DecidableEq, Repr

/-- The chip-range error message of `main`. -/
def chipRangeMsg (nchips : Nat) : String :=
  "Chip numbers must be between 0 and " ++ toString (nchips - 1) ++ "."

/-- `main`, driven by `sys.argv` (element 0 is the script name). -/
def main (argv : List String) : Outcome :=
  match argv with
  | _ :: x_arg :: n_arg :: A_arg :: rest =>
    if validate_nchips x_arg then
      match get_nchips x_arg with
      | none => .crash
      | some nchips =>
        match parse_node_arg n_arg with
        | .error msg => .errorMsg msg
        | .ok start_node_num =>
          match rest with
          | [B_arg] =>
            if leadsWith [ 'P'] B_arg.data then
              match parse_chip_arg A_arg nchips start_node_num with
              | .error msg => .errorMsg msg
              | .ok A_chip =>
                if 0 ≤ A_chip ∧ A_chip < (nchips : Int) then
                  match find_connections_from_port nchips start_node_num A_chip B_arg with
                  | none => .crash
                  | some cs => .lines cs
                else .errorMsg (chipRangeMsg nchips)
            else
              match parse_chip_arg A_arg nchips start_node_num,
                  parse_chip_arg B_arg nchips start_node_num with
              | .ok A_chip, .ok B_chip =>
                if 0 ≤ A_chip ∧ A_chip < (nchips : Int)
                    ∧ 0 ≤ B_chip ∧ B_chip < (nchips : Int) then
                  .lines (find_connections_between_chips nchips start_node_num A_chip B_chip)
                else .errorMsg (chipRangeMsg nchips)
              | .error msg, _ => .errorMsg msg
              | _, .error msg => .errorMsg msg
          | [] =>
            match parse_chip_arg A_arg nchips start_node_num with
            | .error msg => .errorMsg msg
            | .ok A_chip =>
              if 0 ≤ A_chip ∧ A_chip < (nchips : Int) then
                .lines (find_all_connections_for_chip nchips start_node_num A_chip)
              else .errorMsg (chipRangeMsg nchips)
          | _ => .errorMsg "Invalid arguments. Must provide another chip, a port, or a single chip."
    else .errorMsg ("Error: nchips must be in format [8|16|24|32|40|64|72]c?, got " ++ x_arg)
  | _ => .usage

/-- Whether an outcome prints at least one connection line. -/
def printsConnLines : Outcome → Bool
  | .lines (_ :: _) => true
  | _ => false

/-! ### Basic facts about the coordinate mapper and the reverse lookup -/

/-- Any coordinate produced by `map_chip_to_node_card` has node in `[1, 9]`
and card in `[0, 7]`, for every integer chip and every start node. -/
lemma map_node_card_range (chip s : Int) :
    1 ≤ (map_chip_to_node_card chip s).1 ∧ (map_chip_to_node_card chip s).1 ≤ 9 ∧
    0 ≤ (map_chip_to_node_card chip s).2 ∧ (map_chip_to_node_card chip s).2 ≤ 7 := by
  have h1 : (0 : Int) ≤ (chip / 8 + (s - 1)) % 9 := Int.emod_nonneg _ (by decide)
  have h2 : (chip / 8 + (s - 1)) % 9 < 9 := Int.emod_lt_of_pos _ (by decide)
  have h3 : (0 : Int) ≤ chip % 8 := Int.emod_nonneg _ (by decide)
  have h4 : chip % 8 < 8 := Int.emod_lt_of_pos _ (by decide)
  unfold map_chip_to_node_card
  dsimp only
  omega

/-- Whatever `node_card_to_chip` returns lies in `[0, nchips)`. -/
lemma node_card_to_chip_mem {n c s x : Int} {nchips : Nat}
    (h : node_card_to_chip n c s nchips = some x) : 0 ≤ x ∧ x < (nchips : Int) := by
  unfold node_card_to_chip at h
  have hmem := List.mem_of_find?_eq_some h
  obtain ⟨m, hm, hxm⟩ := List.mem_map.mp hmem
  rw [List.mem_range] at hm
  subst hxm
  rw [Int.ofNat_eq_natCast]
  exact ⟨Int.natCast_nonneg m, by exact_mod_cast hm⟩

/-- Reverse lookup of a node number above `9` always fails, because every
produced node number lies in `[1, 9]`. -/
lemma node_card_to_chip_node10 (card s : Int) (nchips : Nat) :
    node_card_to_chip 10 card s nchips = none := by
  unfold node_card_to_chip
  rw [List.find?_eq_none]
  intro x _
  simp only [Bool.and_eq_true, beq_iff_eq, not_and]
  intro hn
  have := (map_node_card_range x s).2.1
  omega

/-! ### The stable sort by the queried-side port number -/

lemma sortConns_sorted (l : List Conn) : (sortConns l).Sorted connLE :=
  List.sorted_insertionSort connLE l

lemma sortConns_perm (l : List Conn) : (sortConns l).Perm l :=
  List.perm_insertionSort connLE l

/-- Inserting into the sort keeps the sub-sequence of any fixed key intact:
elements skipped over by `orderedInsert` have a strictly smaller key. -/
lemma filter_portA_orderedInsert (k : Int) (a : Conn) (l : List Conn) :
    (List.orderedInsert connLE a l).filter (fun c => c.portA == k)
      = ((a :: l).filter (fun c => c.portA == k)) := by
  induction l with
  | nil => rfl
  | cons b t ih =>
    by_cases hab : connLE a b
    · rw [List.orderedInsert, if_pos hab]
    · rw [List.orderedInsert, if_neg hab]
      have hlt : b.portA < a.portA := by
        unfold connLE at hab
        omega
      by_cases hk : a.portA = k
      · have hbk : ¬(b.portA = k) := by omega
        simp only [List.filter_cons, ih]
        simp [hk, hbk]
      · simp only [List.filter_cons, ih]
        simp [hk]

/-- The stable sort preserves the sub-sequence of every fixed key: ties are
left in the order of the unsorted list. -/
lemma filter_portA_sortConns (k : Int) (l : List Conn) :
    (sortConns l).filter (fun c => c.portA == k)
      = l.filter (fun c => c.portA == k) := by
  induction l with
  | nil => rfl
  | cons a t ih =>
    show (List.orderedInsert connLE a (sortConns t)).filter _ = _
    rw [filter_portA_orderedInsert]
    simp only [List.filter_cons, ih]

/-- Sorting a list of at most one element changes nothing. -/
lemma sortConns_of_len_le_one {l : List Conn} (h : l.length ≤ 1) :
    sortConns l = l := by
  match l with
  | [] => rfl
  | [a] => rfl
  | a :: b :: t => simp at h

/-- Sorting a list whose keys are all equal changes nothing. -/
lemma sortConns_of_const_key {k : Int} :
    ∀ {l : List Conn}, (∀ c ∈ l, c.portA = k) → sortConns l = l := by
  intro l
  induction l with
  | nil => intro _; rfl
  | cons a t ih =>
    intro h
    show List.orderedInsert connLE a (sortConns t) = a :: t
    rw [ih (fun c hc => h c (List.mem_cons_of_mem a hc))]
    cases t with
    | nil => rfl
    | cons b t2 =>
      rw [List.orderedInsert, if_pos]
      show a.portA ≤ b.portA
      rw [h a (List.mem_cons_self a _), h b (by simp)]

/-- A scan whose hits are pairwise exclusive produces at most one result. -/
lemma length_filterMap_le_one {α β : Type} (f : α → Option β) :
    ∀ l : List α, l.Pairwise (fun x y => f x = none ∨ f y = none) →
      (l.filterMap f).length ≤ 1 := by
  intro l
  induction l with
  | nil => intro _; simp
  | cons a t ih =>
    intro h
    rw [List.pairwise_cons] at h
    obtain ⟨ha, ht⟩ := h
    cases hfa : f a with
    | none => rw [List.filterMap_cons_none hfa]; exact ih ht
    | some v =>
      rw [List.filterMap_cons_some hfa]
      have hnil : t.filterMap f = [] := by
        rw [List.filterMap_eq_nil_iff]
        intro x hx
        rcases ha x hx with h1 | h2
        · rw [hfa] at h1; cases h1
        · exact h2
      rw [hnil]
      simp

/-! ### Facts about the static wiring tables (checked by evaluation) -/

/-- No internal row links a card to itself. -/
lemma internal_cards_ne : ∀ e ∈ internal_connections, e.card1 ≠ e.card2 := by decide

/-- Distinct internal rows carry distinct unordered card pairs. -/
lemma internal_pairs_distinct :
    internal_connections.Pairwise (fun e1 e2 =>
      ¬((e1.card1 = e2.card1 ∧ e1.card2 = e2.card2) ∨
        (e1.card1 = e2.card2 ∧ e1.card2 = e2.card1))) := by decide

set_option maxRecDepth 10000 in
/-- The two sides of an external row never name the same (node, card)
position (compared numerically, ignoring the rack marker, exactly the way
the resolvers compare them). -/
lemma external_sides_ne :
    ∀ e ∈ external_connections,
      ¬(e.side1.node = e.side2.node ∧ e.side1.card = e.side2.card) := by decide

set_option maxRecDepth 10000 in
/-- Distinct external rows carry distinct unordered numeric
`((node, card), (node, card))` side pairs. -/
lemma external_pairs_distinct :
    external_connections.Pairwise (fun e1 e2 =>
      ¬((e1.side1.node = e2.side1.node ∧ e1.side1.card = e2.side1.card ∧
         e1.side2.node = e2.side2.node ∧ e1.side2.card = e2.side2.card) ∨
        (e1.side1.node = e2.side2.node ∧ e1.side1.card = e2.side2.card ∧
         e1.side2.node = e2.side1.node ∧ e1.side2.card = e2.side1.card))) := by decide

/-! ### Symmetry machinery for `find_connections_between_chips` -/

lemma swapConn_swapConn (c : Conn) : swapConn (swapConn c) = c := rfl

/-- For a row that does not link a card to itself, scanning it with the two
query sides exchanged yields the side-swapped tuple. -/
lemma betweenIntF_swap (nA cA A nB cB B : Int) (e : InternalConn)
    (hne : e.card1 ≠ e.card2) :
    betweenIntF nB cB B nA cA A e
      = Option.map swapConn (betweenIntF nA cA A nB cB B e) := by
  unfold betweenIntF
  by_cases h1 : e.card1 = cA ∧ e.card2 = cB
  · rw [if_pos h1, if_neg (fun hc => hne (h1.1.trans hc.2.symm)), if_pos ⟨h1.2, h1.1⟩]
    rfl
  · rw [if_neg h1]
    by_cases h2 : e.card2 = cA ∧ e.card1 = cB
    · rw [if_pos h2, if_pos ⟨h2.2, h2.1⟩]
      rfl
    · rw [if_neg h2, if_neg (fun hc => h2 ⟨hc.2, hc.1⟩), if_neg (fun hc => h1 ⟨hc.2, hc.1⟩)]
      rfl

/-- Same for an external row whose two sides are numerically distinct. -/
lemma betweenExtF_swap (nA cA A nB cB B : Int) (e : ExtConn)
    (hne : ¬(e.side1.node = e.side2.node ∧ e.side1.card = e.side2.card)) :
    betweenExtF nB cB B nA cA A e
      = Option.map swapConn (betweenExtF nA cA A nB cB B e) := by
  unfold betweenExtF
  by_cases h1 : e.side1.node = nA ∧ e.side1.card = cA ∧ e.side2.node = nB ∧ e.side2.card = cB
  · rw [if_pos h1,
        if_neg (fun hc => hne ⟨h1.1.trans hc.2.2.1.symm, h1.2.1.trans hc.2.2.2.symm⟩),
        if_pos ⟨h1.2.2.1, h1.2.2.2, h1.1, h1.2.1⟩]
    rfl
  · rw [if_neg h1]
    by_cases h2 : e.side2.node = nA ∧ e.side2.card = cA ∧ e.side1.node = nB ∧ e.side1.card = cB
    · rw [if_pos h2, if_pos ⟨h2.2.2.1, h2.2.2.2, h2.1, h2.2.1⟩]
      rfl
    · rw [if_neg h2, if_neg (fun hc => h2 ⟨hc.2.2.1, hc.2.2.2, hc.1, hc.2.1⟩),
          if_neg (fun hc => h1 ⟨hc.2.2.1, hc.2.2.2, hc.1, hc.2.1⟩)]
      rfl

lemma find_connections_between_raw_swap (nA cA A nB cB B : Int) :
    find_connections_between_raw nB cB B nA cA A
      = (find_connections_between_raw nA cA A nB cB B).map swapConn := by
  unfold find_connections_between_raw
  by_cases h : nA = nB
  · rw [if_pos h.symm, if_pos h, List.map_filterMap]
    exact List.filterMap_congr (fun e he =>
      betweenIntF_swap nA cA A nB cB B e (internal_cards_ne e he))
  · rw [if_neg (fun hh => h hh.symm), if_neg h, List.map_filterMap]
    exact List.filterMap_congr (fun e he =>
      betweenExtF_swap nA cA A nB cB B e (external_sides_ne e he))

lemma betweenIntF_eq_some {nA cA A nB cB B : Int} {e : InternalConn} {c : Conn}
    (h : betweenIntF nA cA A nB cB B e = some c) :
    (e.card1 = cA ∧ e.card2 = cB) ∨ (e.card2 = cA ∧ e.card1 = cB) := by
  unfold betweenIntF at h
  by_cases h1 : e.card1 = cA ∧ e.card2 = cB
  · exact Or.inl h1
  · rw [if_neg h1] at h
    by_cases h2 : e.card2 = cA ∧ e.card1 = cB
    · exact Or.inr h2
    · rw [if_neg h2] at h
      cases h

lemma betweenExtF_eq_some {nA cA A nB cB B : Int} {e : ExtConn} {c : Conn}
    (h : betweenExtF nA cA A nB cB B e = some c) :
    (e.side1.node = nA ∧ e.side1.card = cA ∧ e.side2.node = nB ∧ e.side2.card = cB)
    ∨ (e.side2.node = nA ∧ e.side2.card = cA ∧ e.side1.node = nB ∧ e.side1.card = cB) := by
  unfold betweenExtF at h
  by_cases h1 : e.side1.node = nA ∧ e.side1.card = cA ∧ e.side2.node = nB ∧ e.side2.card = cB
  · exact Or.inl h1
  · rw [if_neg h1] at h
    by_cases h2 : e.side2.node = nA ∧ e.side2.card = cA ∧ e.side1.node = nB ∧ e.side1.card = cB
    · exact Or.inr h2
    · rw [if_neg h2] at h
      cases h

/-- Any (coordinate, coordinate) query matches at most one table row, so a
point-to-point result has at most one entry. -/
lemma find_connections_between_raw_len (nA cA A nB cB B : Int) :
    (find_connections_between_raw nA cA A nB cB B).length ≤ 1 := by
  unfold find_connections_between_raw
  by_cases h : nA = nB
  · rw [if_pos h]
    apply length_filterMap_le_one
    apply internal_pairs_distinct.imp
    intro e1 e2 hd
    by_contra hcon
    push_neg at hcon
    obtain ⟨hne1, hne2⟩ := hcon
    cases hc1 : betweenIntF nA cA A nB cB B e1 with
    | none => exact hne1 hc1
    | some c1 =>
      cases hc2 : betweenIntF nA cA A nB cB B e2 with
      | none => exact hne2 hc2
      | some c2 =>
        rcases betweenIntF_eq_some hc1 with ⟨a1, b1⟩ | ⟨a1, b1⟩ <;>
          rcases betweenIntF_eq_some hc2 with ⟨a2, b2⟩ | ⟨a2, b2⟩
        · exact hd (Or.inl ⟨a1.trans a2.symm, b1.trans b2.symm⟩)
        · exact hd (Or.inr ⟨a1.trans a2.symm, b1.trans b2.symm⟩)
        · exact hd (Or.inr ⟨b1.trans b2.symm, a1.trans a2.symm⟩)
        · exact hd (Or.inl ⟨b1.trans b2.symm, a1.trans a2.symm⟩)
  · rw [if_neg h]
    apply length_filterMap_le_one
    apply external_pairs_distinct.imp
    intro e1 e2 hd
    by_contra hcon
    push_neg at hcon
    obtain ⟨hne1, hne2⟩ := hcon
    cases hc1 : betweenExtF nA cA A nB cB B e1 with
    | none => exact hne1 hc1
    | some c1 =>
      cases hc2 : betweenExtF nA cA A nB cB B e2 with
      | none => exact hne2 hc2
      | some c2 =>
        rcases betweenExtF_eq_some hc1 with ⟨a1, b1, d1, f1⟩ | ⟨a1, b1, d1, f1⟩ <;>
          rcases betweenExtF_eq_some hc2 with ⟨a2, b2, d2, f2⟩ | ⟨a2, b2, d2, f2⟩
        · exact hd (Or.inl ⟨a1.trans a2.symm, b1.trans b2.symm,
            d1.trans d2.symm, f1.trans f2.symm⟩)
        · exact hd (Or.inr ⟨a1.trans a2.symm, b1.trans b2.symm,
            d1.trans d2.symm, f1.trans f2.symm⟩)
        · exact hd (Or.inr ⟨d1.trans d2.symm, f1.trans f2.symm,
            a1.trans a2.symm, b1.trans b2.symm⟩)
        · exact hd (Or.inl ⟨d1.trans d2.symm, f1.trans f2.symm,
            a1.trans a2.symm, b1.trans b2.symm⟩)

/-- C5: for every `nchips`, start node and chips `a`, `b`,
`find_connections_between_chips nchips s a b` equals
`find_connections_between_chips nchips s b a` with the two sides of every
connection tuple swapped.  (The statement needs no bounds: the resolver is
total and its coordinate arithmetic is defined for all integers.) -/
theorem between_chips_symm (nchips : Nat) (s A B : Int) :
    find_connections_between_chips nchips s A B
      = (find_connections_between_chips nchips s B A).map swapConn := by
  unfold find_connections_between_chips
  rw [sortConns_of_len_le_one (find_connections_between_raw_len _ _ _ _ _ _),
      sortConns_of_len_le_one (find_connections_between_raw_len _ _ _ _ _ _),
      find_connections_between_raw_swap]

/-- C1 counterexample: at `nchips = 72`, `startNode = 1`, chips `0` and `8`,
the single connection found is not `N1/C0/P15 ↔ N2/C0/P4` as the
specification's Scenario B states. -/
theorem scenarioB_cex :
    find_connections_between_chips 72 1 0 8
      ≠ [⟨15, .rx, 1, 0, 0, .rx, 2, 0, 4, 8⟩] := by decide

/-- C1 (amended): chips `0` and `8` map to `(node 1, card 0)` and
`(node 2, card 0)`, and the resolver returns exactly one connection,
`N1/C0/P5 ↔ N2/C0/P0` (table row 104), with devices 0 and 8. -/
theorem scenarioB_amended :
    map_chip_to_node_card 0 1 = (1, 0) ∧ map_chip_to_node_card 8 1 = (2, 0) ∧
    find_connections_between_chips 72 1 0 8
      = [⟨5, .rx, 1, 0, 0, .rx, 2, 0, 0, 8⟩] := by decide

/-! ### Window closure of `find_all_connections_for_chip` -/

/-- C3: every connection returned by `find_all_connections_for_chip` has a
partner device (`devB`) inside the active window `[0, nchips)`; a table
endpoint whose partner coordinate resolves to no chip in the window is
dropped by the `other_chip is not None` guards, producing no entry and no
error (the function is total and merely skips such rows). -/
theorem find_all_window_closure (nchips : Nat) (s A : Int) :
    ∀ c ∈ find_all_connections_for_chip nchips s A,
      0 ≤ c.devB ∧ c.devB < (nchips : Int) := by
  intro c hc
  unfold find_all_connections_for_chip at hc
  rw [(sortConns_perm _).mem_iff] at hc
  unfold find_all_connections_raw at hc
  rcases List.mem_append.mp hc with hin | hin <;>
    obtain ⟨e, he, hfe⟩ := List.mem_filterMap.mp hin
  · unfold allIntF at hfe
    by_cases h1 : e.card1 = (map_chip_to_node_card A s).2
    · rw [if_pos h1] at hfe
      cases hnc : node_card_to_chip (map_chip_to_node_card A s).1 e.card2 s nchips with
      | none => rw [hnc] at hfe; cases hfe
      | some o => rw [hnc] at hfe; cases hfe; exact node_card_to_chip_mem hnc
    · rw [if_neg h1] at hfe
      by_cases h2 : e.card2 = (map_chip_to_node_card A s).2
      · rw [if_pos h2] at hfe
        cases hnc : node_card_to_chip (map_chip_to_node_card A s).1 e.card1 s nchips with
        | none => rw [hnc] at hfe; cases hfe
        | some o => rw [hnc] at hfe; cases hfe; exact node_card_to_chip_mem hnc
      · rw [if_neg h2] at hfe; cases hfe
  · unfold allExtF at hfe
    by_cases h1 : e.side1.node = (map_chip_to_node_card A s).1
        ∧ e.side1.card = (map_chip_to_node_card A s).2
    · rw [if_pos h1] at hfe
      cases hnc : node_card_to_chip e.side2.node e.side2.card s nchips with
      | none => rw [hnc] at hfe; cases hfe
      | some o => rw [hnc] at hfe; cases hfe; exact node_card_to_chip_mem hnc
    · rw [if_neg h1] at hfe
      by_cases h2 : e.side2.node = (map_chip_to_node_card A s).1
          ∧ e.side2.card = (map_chip_to_node_card A s).2
      · rw [if_pos h2] at hfe
        cases hnc : node_card_to_chip e.side1.node e.side1.card s nchips with
        | none => rw [hnc] at hfe; cases hfe
        | some o => rw [hnc] at hfe; cases hfe; exact node_card_to_chip_mem hnc
      · rw [if_neg h2] at hfe; cases hfe

/-- Witness for C3: a concrete connection of the `72c, N1, chip 0` query,
whose partner device 8 indeed lies in `[0, 72)`. -/
theorem find_all_window_closure_witness :
    (⟨5, .rx, 1, 0, 0, .rx, 2, 0, 0, 8⟩ : Conn) ∈ find_all_connections_for_chip 72 1 0
    ∧ (0 ≤ ((⟨5, .rx, 1, 0, 0, .rx, 2, 0, 0, 8⟩ : Conn)).devB
        ∧ ((⟨5, .rx, 1, 0, 0, .rx, 2, 0, 0, 8⟩ : Conn)).devB < ((72 : Nat) : Int)) :=
  ⟨by decide, find_all_window_closure 72 1 0 _ (by decide)⟩

/-- C10: `map_chip_to_node_card` is total and always lands in the valid
coordinate space: node in `[1, 9]`, card in `[0, 7]`, for every integer
chip (negative or past the window) and every start node in `[1, 9]`. -/
theorem map_chip_total_range (chip s : Int) (hs1 : 1 ≤ s) (hs9 : s ≤ 9) :
    1 ≤ (map_chip_to_node_card chip s).1 ∧ (map_chip_to_node_card chip s).1 ≤ 9 ∧
    0 ≤ (map_chip_to_node_card chip s).2 ∧ (map_chip_to_node_card chip s).2 ≤ 7 :=
  map_node_card_range chip s

/-- Witness for C10 at the negative chip `-5` and start node `3`. -/
theorem map_chip_total_range_witness :
    (1 ≤ (3 : Int) ∧ (3 : Int) ≤ 9) ∧
    (1 ≤ (map_chip_to_node_card (-5) 3).1 ∧ (map_chip_to_node_card (-5) 3).1 ≤ 9 ∧
     0 ≤ (map_chip_to_node_card (-5) 3).2 ∧ (map_chip_to_node_card (-5) 3).2 ≤ 7) :=
  ⟨by decide, map_chip_total_range (-5) 3 (by decide) (by decide)⟩

/-! ### Port mode as a filter of enumerate-all mode -/

/-- Pointwise on an internal row that does not link a card to itself, the
port-mode internal scan is the enumerate-all internal scan filtered to the
queried port. -/
lemma fpInt_pointwise (nchips : Nat) (s nA cA A pn : Int) (e : InternalConn)
    (hne : e.card1 ≠ e.card2) :
    (byPortF cA pn e).bind (fpIntH nchips s nA cA A)
      = Option.filter (fun c => c.portA == pn) (allIntF nchips s nA cA A e) := by
  unfold byPortF fpIntH allIntF
  by_cases h1 : e.card1 = cA
  · by_cases hp1 : e.connector1 = pn
    · rw [if_pos ⟨h1, hp1⟩, if_pos h1]
      cases hnc : node_card_to_chip nA e.card2 s nchips with
      | none => simp [hnc, Option.filter]
      | some o => simp [hnc, Option.filter, beq_iff_eq, hp1]
    · rw [if_neg (fun hc => hp1 hc.2), if_neg (fun hc => hne (h1.trans hc.1.symm)),
          if_pos h1]
      cases hnc : node_card_to_chip nA e.card2 s nchips with
      | none => simp [hnc, Option.filter]
      | some o => simp [hnc, Option.filter, beq_iff_eq, hp1]
  · by_cases h2 : e.card2 = cA
    · by_cases hp2 : e.connector2 = pn
      · rw [if_neg (fun hc => h1 hc.1), if_pos ⟨h2, hp2⟩, if_neg h1, if_pos h2]
        cases hnc : node_card_to_chip nA e.card1 s nchips with
        | none => simp [hnc, Option.filter]
        | some o => simp [hnc, Option.filter, beq_iff_eq, hp2]
      · rw [if_neg (fun hc => h1 hc.1), if_neg (fun hc => hp2 hc.2), if_neg h1, if_pos h2]
        cases hnc : node_card_to_chip nA e.card1 s nchips with
        | none => simp [hnc, Option.filter]
        | some o => simp [hnc, Option.filter, beq_iff_eq, hp2]
    · rw [if_neg (fun hc => h1 hc.1), if_neg (fun hc => h2 hc.1), if_neg h1, if_neg h2]
      rfl

/-- Pointwise on an external row with numerically distinct sides, the
port-mode external scan is the enumerate-all external scan filtered to the
queried port. -/
lemma fpExt_pointwise (nchips : Nat) (s nA cA A pn : Int) (e : ExtConn)
    (hne : ¬(e.side1.node = e.side2.node ∧ e.side1.card = e.side2.card)) :
    fpExtF nchips s nA cA A pn e
      = Option.filter (fun c => c.portA == pn) (allExtF nchips s nA cA A e) := by
  unfold fpExtF allExtF
  by_cases m1 : e.side1.node = nA ∧ e.side1.card = cA
  · by_cases hp1 : e.side1.port = pn
    · rw [if_pos ⟨m1.1, m1.2, hp1⟩, if_pos m1]
      cases hnc : node_card_to_chip e.side2.node e.side2.card s nchips with
      | none => simp [hnc, Option.filter]
      | some o => simp [hnc, Option.filter, beq_iff_eq, hp1]
    · rw [if_neg (fun hc => hp1 hc.2.2),
          if_neg (fun hc => hne ⟨m1.1.trans hc.1.symm, m1.2.trans hc.2.1.symm⟩),
          if_pos m1]
      cases hnc : node_card_to_chip e.side2.node e.side2.card s nchips with
      | none => simp [hnc, Option.filter]
      | some o => simp [hnc, Option.filter, beq_iff_eq, hp1]
  · by_cases m2 : e.side2.node = nA ∧ e.side2.card = cA
    · by_cases hp2 : e.side2.port = pn
      · rw [if_neg (fun hc => m1 ⟨hc.1, hc.2.1⟩), if_pos ⟨m2.1, m2.2, hp2⟩,
            if_neg m1, if_pos m2]
        cases hnc : node_card_to_chip e.side1.node e.side1.card s nchips with
        | none => simp [hnc, Option.filter]
        | some o => simp [hnc, Option.filter, beq_iff_eq, hp2]
      · rw [if_neg (fun hc => m1 ⟨hc.1, hc.2.1⟩), if_neg (fun hc => hp2 hc.2.2),
            if_neg m1, if_pos m2]
        cases hnc : node_card_to_chip e.side1.node e.side1.card s nchips with
        | none => simp [hnc, Option.filter]
        | some o => simp [hnc, Option.filter, beq_iff_eq, hp2]
    · rw [if_neg (fun hc => m1 ⟨hc.1, hc.2.1⟩), if_neg (fun hc => m2 ⟨hc.1, hc.2.1⟩),
          if_neg m1, if_neg m2]
      rfl

/-- Before sorting, the port-mode scan result is exactly the enumerate-all
scan result filtered to the queried port, in the same order. -/
lemma from_port_raw_eq_filter (nchips : Nat) (s A pn : Int) :
    find_connections_from_port_raw nchips s A pn
      = (find_all_connections_raw nchips s A).filter (fun c => c.portA == pn) := by
  unfold find_connections_from_port_raw find_all_connections_raw
  rw [List.filter_append]
  congr 1
  · unfold c2c_internal_connections_by_port
    rw [List.filterMap_filterMap, List.filter_filterMap]
    exact List.filterMap_congr (fun e he =>
      fpInt_pointwise nchips s _ _ A pn e (internal_cards_ne e he))
  · rw [List.filter_filterMap]
    exact List.filterMap_congr (fun e he =>
      fpExt_pointwise nchips s _ _ A pn e (external_sides_ne e he))

/-- C6: for every `nchips`, start node, chip and port string whose tail
parses to the integer `pn` (in particular `"P" + pn`),
`find_connections_from_port` returns exactly the sublist of
`find_all_connections_for_chip` whose queried-side port equals `pn`, in the
same order. -/
theorem port_mode_refinement (nchips : Nat) (s A pn : Int) (ps : String)
    (hp : str_to_int? (ps.data.drop 1) = some pn) :
    find_connections_from_port nchips s A ps
      = some ((find_all_connections_for_chip nchips s A).filter
          (fun c => c.portA == pn)) := by
  unfold find_connections_from_port find_all_connections_for_chip
  rw [hp]
  show some (sortConns (find_connections_from_port_raw nchips s A pn))
      = some ((sortConns (find_all_connections_raw nchips s A)).filter
          (fun c => c.portA == pn))
  rw [filter_portA_sortConns, ← from_port_raw_eq_filter]
  congr 1
  apply sortConns_of_const_key
  intro c hc
  rw [from_port_raw_eq_filter] at hc
  have := (List.mem_filter.mp hc).2
  exact beq_iff_eq.mp this

/-- Witness for C6: the `72c, N1, chip 0, P5` query. -/
theorem port_mode_refinement_witness :
    str_to_int? ("P5".data.drop 1) = some 5 ∧
    find_connections_from_port 72 1 0 "P5"
      = some ((find_all_connections_for_chip 72 1 0).filter (fun c => c.portA == 5)) :=
  ⟨by decide, port_mode_refinement 72 1 0 5 "P5" (by decide)⟩

/-- C4: every resolver result is sorted ascending in the queried side's
port/connector number; it is a permutation of the pre-sort scan list
(internal-table matches before external-table matches, each in table
order; in particular, no wiring means the empty list, never an error);
and ties are left exactly in scan order (the sub-list of every fixed key
is unchanged by the sort).  For port mode the same holds for whatever
list the function returns when the port token parses. -/
theorem resolver_sort_order (nchips : Nat) (s A B pn : Int) (ps : String) :
    ((find_all_connections_for_chip nchips s A).Sorted connLE
      ∧ (find_all_connections_for_chip nchips s A).Perm (find_all_connections_raw nchips s A)
      ∧ ∀ k : Int, (find_all_connections_for_chip nchips s A).filter (fun c => c.portA == k)
          = (find_all_connections_raw nchips s A).filter (fun c => c.portA == k))
    ∧ ((find_connections_between_chips nchips s A B).Sorted connLE
      ∧ (find_connections_between_chips nchips s A B).Perm
          (find_connections_between_raw
            (map_chip_to_node_card A s).1 (map_chip_to_node_card A s).2 A
            (map_chip_to_node_card B s).1 (map_chip_to_node_card B s).2 B)
      ∧ ∀ k : Int, (find_connections_between_chips nchips s A B).filter (fun c => c.portA == k)
          = (find_connections_between_raw
              (map_chip_to_node_card A s).1 (map_chip_to_node_card A s).2 A
              (map_chip_to_node_card B s).1 (map_chip_to_node_card B s).2 B).filter
              (fun c => c.portA == k))
    ∧ ((sortConns (find_connections_from_port_raw nchips s A pn)).Sorted connLE
      ∧ (sortConns (find_connections_from_port_raw nchips s A pn)).Perm
          (find_connections_from_port_raw nchips s A pn)
      ∧ ∀ k : Int, (sortConns (find_connections_from_port_raw nchips s A pn)).filter
            (fun c => c.portA == k)
          = (find_connections_from_port_raw nchips s A pn).filter (fun c => c.portA == k))
    ∧ (∀ l : List Conn, find_connections_from_port nchips s A ps = some l →
        l.Sorted connLE) := by
  refine ⟨⟨sortConns_sorted _, sortConns_perm _, fun k => filter_portA_sortConns k _⟩,
    ⟨sortConns_sorted _, sortConns_perm _, fun k => filter_portA_sortConns k _⟩,
    ⟨sortConns_sorted _, sortConns_perm _, fun k => filter_portA_sortConns k _⟩, ?_⟩
  intro l h
  unfold find_connections_from_port at h
  cases hps : str_to_int? (ps.data.drop 1) with
  | none => rw [hps] at h; cases h
  | some q =>
    rw [hps] at h
    cases h
    exact sortConns_sorted _

/-- Witness for C4: the `72c, N1, chip 0, P5` port query returns a
concrete list, and that list is sorted. -/
theorem resolver_sort_order_witness :
    find_connections_from_port 72 1 0 "P5" = some [⟨5, .rx, 1, 0, 0, .rx, 2, 0, 0, 8⟩]
    ∧ ([⟨5, .rx, 1, 0, 0, .rx, 2, 0, 0, 8⟩] : List Conn).Sorted connLE :=
  ⟨by decide, (resolver_sort_order 72 1 0 8 5 "P5").2.2.2 _ (by decide)⟩

/-! ### Round-trip of the coordinate mapping -/

set_option maxHeartbeats 4000000 in
/-- C2: for every supported fabric size, every start node in `[1, 9]` and
every chip in `[0, nchips)`, the reverse lookup applied to the chip's
coordinate returns exactly that chip (never `none`). -/
theorem chip_coord_round_trip :
    ∀ nchips ∈ ([8, 16, 24, 32, 40, 64, 72] : List Nat),
      ∀ s ∈ ([1, 2, 3, 4, 5, 6, 7, 8, 9] : List Nat),
        ∀ chip ∈ List.range nchips,
          node_card_to_chip (map_chip_to_node_card (chip : Int) (s : Int)).1
            (map_chip_to_node_card (chip : Int) (s : Int)).2 (s : Int) nchips
            = some (chip : Int) := by decide

/-- Witness for C2 at `nchips = 72`, `startNode = 1`, `chip = 5`. -/
theorem chip_coord_round_trip_witness :
    (72 ∈ ([8, 16, 24, 32, 40, 64, 72] : List Nat))
    ∧ node_card_to_chip (map_chip_to_node_card ((5 : Nat) : Int) ((1 : Nat) : Int)).1
        (map_chip_to_node_card ((5 : Nat) : Int) ((1 : Nat) : Int)).2 ((1 : Nat) : Int) 72
        = some ((5 : Nat) : Int) :=
  ⟨by decide, chip_coord_round_trip 72 (by decide) 1 (by decide) 5 (by decide)⟩

/-! ### The fabric-size token language -/

lemma leadsWith_iff : ∀ (p s : List Char), leadsWith p s = true ↔ ∃ t, s = p ++ t := by
  intro p
  induction p with
  | nil => intro s; simp [leadsWith]
  | cons a p2 ih =>
    intro s
    cases s with
    | nil => simp [leadsWith]
    | cons b s2 =>
      simp only [leadsWith, Bool.and_eq_true, beq_iff_eq, List.cons_append,
        List.cons.injEq]
      rw [ih s2]
      constructor
      · rintro ⟨rfl, t, rfl⟩
        exact ⟨t, rfl, rfl⟩
      · rintro ⟨t, h1, h2⟩
        exact ⟨h1.symm, t, h2⟩

lemma regex_dollar_iff (t : List Char) :
    regex_dollar t = true ↔ (t = [] ∨ t = [ '\n']) := by
  unfold regex_dollar
  simp

/-- The suffix accepted after the size token by `c?$`:
nothing, a newline, a `c`, or a `c` and a newline. -/
lemma regex_opt_c_iff (t : List Char) :
    (regex_dollar t || (t.head? == some 'c' && regex_dollar t.tail)) = true
      ↔ (t = [] ∨ t = [ '\n'] ∨ t = [ 'c'] ∨ t = [ 'c', '\n']) := by
  cases t with
  | nil => simp [regex_dollar]
  | cons c0 t0 =>
    simp only [Bool.or_eq_true, Bool.and_eq_true, regex_dollar_iff,
      List.head?_cons, List.tail_cons, beq_iff_eq, Option.some.injEq]
    constructor
    · rintro ((h | h) | ⟨rfl, (rfl | rfl)⟩)
      · cases h
      · exact Or.inr (Or.inl h)
      · exact Or.inr (Or.inr (Or.inl rfl))
      · exact Or.inr (Or.inr (Or.inr rfl))
    · rintro (h | h | h | h)
      · cases h
      · exact Or.inl (Or.inr h)
      · injection h with h1 h2
        subst h1; subst h2
        exact Or.inr ⟨rfl, Or.inl rfl⟩
      · injection h with h1 h2
        subst h1; subst h2
        exact Or.inr ⟨rfl, Or.inr rfl⟩

/-- One alternation branch of `validate_nchips` accepts exactly the token,
optionally followed by `c`, optionally followed by one newline. -/
lemma validate_token_iff (p x : String) :
    (leadsWith p.data x.data &&
      (regex_dollar (x.data.drop p.data.length)
        || ((x.data.drop p.data.length).head? == some 'c'
            && regex_dollar (x.data.drop p.data.length).tail))) = true
    ↔ (x = p ∨ x = p ++ "c" ∨ x = p ++ "\n" ∨ x = p ++ "c\n") := by
  have hc : ("c" : String).data = [ 'c'] := rfl
  have hn : ("\n" : String).data = [ '\n'] := rfl
  have hcn : ("c\n" : String).data = [ 'c', '\n'] := rfl
  rw [Bool.and_eq_true, leadsWith_iff]
  constructor
  · rintro ⟨⟨t, ht⟩, h2⟩
    rw [ht, List.drop_left] at h2
    rcases (regex_opt_c_iff t).mp h2 with rfl | rfl | rfl | rfl
    · exact Or.inl (String.ext (by rw [ht, List.append_nil]))
    · exact Or.inr (Or.inr (Or.inl (String.ext (by rw [ht, String.data_append, hn]))))
    · exact Or.inr (Or.inl (String.ext (by rw [ht, String.data_append, hc])))
    · exact Or.inr (Or.inr (Or.inr (String.ext (by rw [ht, String.data_append, hcn]))))
  · rintro (rfl | rfl | rfl | rfl)
    · refine ⟨⟨[], by rw [List.append_nil]⟩, ?_⟩
      rw [List.drop_length]
      rfl
    · rw [String.data_append, hc, List.drop_left]
      exact ⟨⟨[ 'c'], rfl⟩, by rfl⟩
    · rw [String.data_append, hn, List.drop_left]
      exact ⟨⟨[ '\n'], rfl⟩, by rfl⟩
    · rw [String.data_append, hcn, List.drop_left]
      exact ⟨⟨[ 'c', '\n'], rfl⟩, by rfl⟩

/-- C7 (amended): the first argument is accepted exactly when it is one of
`8, 16, 24, 32, 40, 64, 72` with an optional trailing `c`, optionally
followed by a single trailing newline (an artifact of Python's `$` anchor
in `re.match`); on any rejected first argument the program prints the
nchips error message and terminates without printing connection lines. -/
theorem validate_nchips_amended :
    (∀ x : String, validate_nchips x = true ↔
      ∃ p ∈ nchips_size_tokens,
        x = p ∨ x = p ++ "c" ∨ x = p ++ "\n" ∨ x = p ++ "c\n")
    ∧ (∀ (a0 x n a : String) (rest : List String), validate_nchips x = false →
        main (a0 :: x :: n :: a :: rest)
          = .errorMsg ("Error: nchips must be in format [8|16|24|32|40|64|72]c?, got " ++ x)) := by
  constructor
  · intro x
    unfold validate_nchips
    rw [List.any_eq_true]
    exact exists_congr fun p => and_congr_right fun _ => validate_token_iff p x
  · intro a0 x n a rest h
    simp [main, h]

/-- C7 counterexample: `"8\n"` is not a size with optional `c`, yet the
program accepts it and prints connection lines. -/
theorem validate_nchips_cex :
    validate_nchips "8\n" = true
    ∧ ("8\n" ∉ ["8", "8c", "16", "16c", "24", "24c", "32", "32c", "40",
        "40c", "64", "64c", "72", "72c"])
    ∧ printsConnLines (main ["xt", "8\n", "N1", "0"]) = true := by decide

/-- Witness for C7 at the spec's own example `"15c"`. -/
theorem validate_nchips_amended_witness :
    validate_nchips "15c" = false
    ∧ main ["xt", "15c", "N1", "0"]
        = .errorMsg ("Error: nchips must be in format [8|16|24|32|40|64|72]c?, got " ++ "15c") :=
  ⟨by decide, validate_nchips_amended.2 "xt" "15c" "N1" "0" [] (by decide)⟩

/-! ### Coordinate lookup failure in `parse_chip_arg` -/

lemma str_to_int?_not_num {c : Char} (cs : List Char)
    (hdash : c ≠ '-') (hplus : c ≠ '+') (hdig : c.isDigit = false) :
    str_to_int? (c :: cs) = none := by
  unfold str_to_int?
  rw [if_neg (by simp [hdash]), if_neg (by simp [hplus])]
  unfold digitsToNat?
  rw [if_neg]
  · rfl
  · rintro ⟨-, hall⟩
    rw [List.all_cons, Bool.and_eq_true] at hall
    rw [hdig] at hall
    exact absurd hall.1 (by decide)

lemma splitOnChar_no_sep (sep : Char) (l : List Char) (h : sep ∉ l) :
    splitOnChar sep l = [l] := by
  induction l with
  | nil => rfl
  | cons c rest ih =>
    have hc : ¬(c == sep) = true := by
      simp only [beq_iff_eq]
      intro hceq
      rw [hceq] at h
      exact h (List.mem_cons_self sep rest)
    unfold splitOnChar
    rw [if_neg hc, ih (fun hm => h (List.mem_cons_of_mem c hm))]

lemma splitOnChar_append (sep : Char) (l r : List Char) (h : sep ∉ l) :
    splitOnChar sep (l ++ sep :: r) = l :: splitOnChar sep r := by
  induction l with
  | nil =>
    show splitOnChar sep (sep :: r) = [] :: splitOnChar sep r
    rw [splitOnChar]
    rw [if_pos (by simp)]
  | cons c l2 ih =>
    have hc : ¬(c == sep) = true := by
      simp only [beq_iff_eq]
      intro hceq
      rw [hceq] at h
      exact h (List.mem_cons_self sep l2)
    show splitOnChar sep (c :: (l2 ++ sep :: r)) = (c :: l2) :: splitOnChar sep r
    rw [splitOnChar]
    rw [if_neg hc, ih (fun hm => h (List.mem_cons_of_mem c hm))]

/-- C8: a chip token of the coordinate form `N<node>/C<card>` whose
coordinate has no chip in `[0, nchips)` makes `parse_chip_arg` fail with
the distinct no-match message (a `LookupError`, not an empty result); and
a node number of `10` — e.g. the token `"N10/C0"` — never has a chip, for
any start node and any window, because produced node numbers lie in
`[1, 9]`. -/
theorem coordinate_lookup_error :
    (∀ (nchips : Nat) (s node card : Int) (arg : String) (ns cs : List Char),
      arg.data = 'N' :: ns ++ '/' :: 'C' :: cs →
      '/' ∉ ns → '/' ∉ cs →
      str_to_int? ns = some node → str_to_int? cs = some card →
      node_card_to_chip node card s nchips = none →
      parse_chip_arg arg nchips s
        = .error "No chip matches the given node/card under current mapping.")
    ∧ (∀ (nchips : Nat) (s card : Int),
        node_card_to_chip 10 card s nchips = none) := by
  constructor
  · intro nchips s node card arg ns cs harg hns hcs hnode hcard hnc
    rw [List.cons_append] at harg
    have hstr : str_to_int? ('N' :: (ns ++ '/' :: 'C' :: cs)) = none :=
      str_to_int?_not_num _ (by decide) (by decide) (by decide)
    have hcont : (('N' :: (ns ++ '/' :: 'C' :: cs)).contains '/') = true :=
      List.elem_iff.mpr
        (List.mem_cons_of_mem _ (List.mem_append_right _ (List.mem_cons_self _ _)))
    have h1 : ('/' : Char) ∉ 'N' :: ns := by
      intro hm
      rcases List.mem_cons.mp hm with h | h
      · exact absurd h (by decide)
      · exact hns h
    have h2 : ('/' : Char) ∉ 'C' :: cs := by
      intro hm
      rcases List.mem_cons.mp hm with h | h
      · exact absurd h (by decide)
      · exact hcs h
    have hsplit : splitOnChar '/' ('N' :: (ns ++ '/' :: 'C' :: cs))
        = ['N' :: ns, 'C' :: cs] := by
      have hstep := splitOnChar_append '/' ('N' :: ns) ('C' :: cs) h1
      rw [splitOnChar_no_sep '/' ('C' :: cs) h2, List.cons_append] at hstep
      exact hstep
    have hlead : (leadsWith [ 'N'] ('N' :: ns) && leadsWith [ 'C'] ('C' :: cs)) = true := by
      simp [leadsWith]
    simp only [parse_chip_arg, harg, hstr, hcont, hsplit, hlead,
      List.drop_succ_cons, List.drop_zero, hnode, hcard, hnc, not_true_eq_false,
      if_false, if_true, Bool.true_eq_false]
  · intro nchips s card
    exact node_card_to_chip_node10 card s nchips

/-- Witness for C8 at the spec's example `"N10/C0"` with
`nchips = 72, startNode = 1`. -/
theorem coordinate_lookup_error_witness :
    ("N10/C0".data = 'N' :: [ '1', '0'] ++ '/' :: 'C' :: [ '0'])
    ∧ node_card_to_chip 10 0 1 72 = none
    ∧ parse_chip_arg "N10/C0" 72 1
        = .error "No chip matches the given node/card under current mapping." :=
  ⟨by decide, by decide,
    coordinate_lookup_error.1 72 1 10 0 "N10/C0" [ '1', '0'] [ '0']
      (by decide) (by decide) (by decide) (by decide) (by decide) (by decide)⟩

/-- C9 (code bug in the source): a port token whose tail is not an integer
(`"Px"`, `"P"`) makes `find_connections_from_port` raise an uncaught
`ValueError` from `int(port_str[1:])` — `main` wraps the chip parsing in
`try/except` but not this call, so the process dies with a traceback
(modelled `.crash`) instead of the usage/error message the specification
requires. -/
theorem port_token_crash :
    find_connections_from_port 72 1 0 "Px" = none
    ∧ find_connections_from_port 72 1 0 "P" = none
    ∧ main ["xt", "72c", "N1", "0", "Px"] = .crash
    ∧ main ["xt", "72c", "N1", "0", "P"] = .crash := by decide

end XT
